import Mathlib

/-!
Shallow embedding of `wallpaper.py` (JacobLondon/wallpaper).

The mutable fields of `WallpaperManager` become a record `ManagerState`;
each method becomes a function from states to results.  A Python call can
return normally, raise an uncaught exception (leaving the partially
mutated state behind), or block forever trying to acquire the already
held lock, so results are a three-way sum carrying the state reached.

External effects are modelled inside the state: `wallpaper` is the image
the OS currently displays (`set_wallpaper` target), `output` collects the
lines printed to `file_out`, and `disk_disliked` / `disk_favorites`
mirror the JSON snapshot files written by `json.dump`.  `random.choice`
is made deterministic by an explicit index parameter `k` (the chosen
element is `l[k % len l]`, and the empty-sequence `IndexError` is kept).
A snapshot write that fails is modelled by the boolean parameter
`writeOk` (when false, `json.dump` raises an `OSError`).
-/

namespace Wallpaper

/-- The mutable state owned by `WallpaperManager` (plus the modelled
external world: displayed wallpaper, printed output, snapshot files). -/
structure ManagerState where
  indexed : List String
  disliked_filepaths : List String
  favorites_filepaths : List String
  history : List String
  chosen : String
  done : Bool
  locked : Bool
  wallpaper : String
  file_out : Bool
  output : List String
  disk_disliked : List String
  disk_favorites : List String
deriving Repr, DecidableEq

/-- Python exceptions the manager methods can raise. -/
inductive PyExc where
  | valueError
  | indexError
  | osError
deriving Repr, DecidableEq

/-- Outcome of a manager method: normal return, an uncaught exception
(with the state left behind), or blocking forever on `lock.acquire`. -/
inductive PyResult where
  | ok (s : ManagerState)
  | exn (e : PyExc) (s : ManagerState)
  | blocked (s : ManagerState)
deriving Repr, DecidableEq

/-- The state carried by a result, whatever the outcome. -/
def PyResult.state : PyResult → ManagerState
  | .ok s => s
  | .exn _ s => s
  | .blocked s => s

/-- Whether the result is a normal return. -/
def PyResult.isOk : PyResult → Bool
  | .ok _ => true
  | _ => false

/-- The exception carried by a result, when one was raised. -/
def PyResult.raised : PyResult → Option PyExc
  | .exn e _ => some e
  | _ => none

/-- `random.choice(l)` with the randomness factored out as the index
`k`: returns `l[k % len l]`, or `none` (an `IndexError`) when `l` is
empty. -/
def pyChoice (l : List String) (k : Nat) : Option String :=
  l[k % l.length]?

/-- `WallpaperManager.pick(favorites=...)` (wallpaper.py:277-290).
Acquires the lock; chooses from `favorites_filepaths` when `favorites`
is set and that list is non-empty, otherwise from `indexed`
(`random.choice` raises `IndexError` on the empty pool, and `pick` has
no `try`/`finally`, so the lock stays held on that path); sets `chosen`,
prints it, sets the OS wallpaper, appends to `history`, releases. -/
def pick (favorites : Bool) (k : Nat) (s : ManagerState) : PyResult :=
  if s.locked then .blocked s
  else
    match (if favorites = true ∧ 0 < s.favorites_filepaths.length
           then pyChoice s.favorites_filepaths k
           else pyChoice s.indexed k) with
    | none => .exn .indexError { s with locked := true }
    | some choice =>
      .ok { s with
              chosen := choice,
              output := if s.file_out then s.output ++ [choice] else s.output,
              wallpaper := choice,
              history := s.history ++ [choice],
              locked := false }

/-- `WallpaperManager.undo` (wallpaper.py:233-243).  Acquires the lock;
when `len(history) > 1` pops the stack, reads the new top, sets the OS
wallpaper to it and prints it; releases.  Note that `self.chosen` is
never reassigned. -/
def undo (s : ManagerState) : PyResult :=
  if s.locked then .blocked s
  else
    if 1 < s.history.length then
      match s.history.dropLast.getLast? with
      | none => .exn .indexError { s with locked := true, history := s.history.dropLast }
      | some top =>
        .ok { s with
                history := s.history.dropLast,
                wallpaper := top,
                output := if s.file_out then s.output ++ [top] else s.output,
                locked := false }
    else
      .ok { s with locked := false }

/-- `WallpaperManager.favorite` (wallpaper.py:245-256).  Acquires the
lock, appends `chosen` to the favorites list (before the `try`), then in
a `try`/`finally` prints and dumps the list to the favorites JSON file;
the `finally` releases the lock on both the normal and the failing
path. -/
def favorite (writeOk : Bool) (s : ManagerState) : PyResult :=
  if s.locked then .blocked s
  else
    let s1 : ManagerState :=
      { s with
          locked := true,
          favorites_filepaths := s.favorites_filepaths ++ [s.chosen],
          output := if s.file_out then s.output ++ [s.chosen] else s.output }
    if writeOk then
      .ok { s1 with disk_favorites := s1.favorites_filepaths, locked := false }
    else
      .exn .osError { s1 with locked := false }

/-- `WallpaperManager.dislike` (wallpaper.py:258-275).  Acquires the
lock, prints `chosen`, removes the first occurrence of `chosen` from
`history` (`try`/`except: pass`, so absence is a no-op), then calls
`self.indexed.remove(self.chosen)` outside any `try`: when `chosen` is
not in the pool this raises `ValueError` with the lock still held.
Otherwise it appends to the disliked list, dumps it in a
`try`/`finally` that releases the lock, and finally calls `self.pick()`
after the critical section. -/
def dislike (writeOk : Bool) (k : Nat) (s : ManagerState) : PyResult :=
  if s.locked then .blocked s
  else
    let s1 : ManagerState :=
      { s with
          locked := true,
          output := if s.file_out then s.output ++ [s.chosen] else s.output,
          history := s.history.erase s.chosen }
    if s1.chosen ∈ s1.indexed then
      let s2 : ManagerState :=
        { s1 with
            indexed := s1.indexed.erase s1.chosen,
            disliked_filepaths := s1.disliked_filepaths ++ [s1.chosen] }
      if writeOk then
        pick false k { s2 with disk_disliked := s2.disliked_filepaths, locked := false }
      else
        .exn .osError { s2 with locked := false }
    else
      .exn .valueError s1

/-- `WallpaperManager.get_chosen` (wallpaper.py:292-293): returns
`self.chosen` without touching the lock. -/
def get_chosen (s : ManagerState) : String :=
  s.chosen

/-- `WallpaperManager.set_done` (wallpaper.py:295-296): sets the stop
flag without touching the lock. -/
def set_done (s : ManagerState) : ManagerState :=
  { s with done := true }

/-- A manager operation, for reasoning about operation sequences. -/
inductive MOp where
  | pickOp (favorites : Bool) (k : Nat)
  | dislikeOp (writeOk : Bool) (k : Nat)
  | undoOp
  | favoriteOp (writeOk : Bool)
deriving Repr, DecidableEq

/-- Run one manager operation. -/
def runOp : MOp → ManagerState → PyResult
  | .pickOp f k, s => pick f k s
  | .dislikeOp w k, s => dislike w k s
  | .undoOp, s => undo s
  | .favoriteOp w, s => favorite w s

/-- Run a sequence of manager operations, stopping at the first
abnormal outcome (an exception or a blocked acquire). -/
def runOps : List MOp → ManagerState → PyResult
  | [], s => .ok s
  | o :: os, s =>
    match runOp o s with
    | .ok s1 => runOps os s1
    | r => r

/-! ### Command parsing (`InputHost.read`, wallpaper.py:39-71)

`read` dispatches on the lowercased command string and issues at most
one manager call; it returns `False` only for `exit`/`quit`/`done`.
The model records which manager call would be made (`Effect`), the
returned boolean (`keepGoing`), and the updated local
`mode_favorites` flag. -/

/-- The manager call a parsed command triggers. -/
inductive Effect where
  | dislikeEff
  | undoEff
  | pickEff (favorites : Bool)
  | listEff
  | favoriteEff
  | setDoneEff
  | nothing
deriving Repr, DecidableEq

/-- Result of `InputHost.read`: the triggered manager call, the boolean
returned to the read loop, and the `mode_favorites` flag of the host after
the call. -/
structure ReadResult where
  effect : Effect
  keepGoing : Bool
  mode_favorites : Bool
deriving Repr, DecidableEq

/-- Python `str.lower()`, character-wise over the string's data (the
commands involved are ASCII, where `Char.toLower` matches Python).
Implemented over `List Char` so that the kernel can evaluate it. -/
def pyLower (s : String) : String :=
  String.mk (s.data.map Char.toLower)

/-- Python `str.startswith(pre)`. -/
def pyStartsWith (s pre : String) : Bool :=
  pre.data.isPrefixOf s.data

/-- Python `str.split()` with no argument: split on runs of
whitespace, discarding empty pieces. -/
def pySplit (s : String) : List String :=
  ((s.data.splitOnP Char.isWhitespace).map String.mk).filter (fun t => t ≠ "")

/-- `InputHost.read` (wallpaper.py:39-71).  Lowercases the command
(no whitespace stripping), tests membership in the explicit prefix
tuples for `skip`/`undo`/`next`/`list`/`fav`, uses
`command.startswith("mode")` for the mode command, and exact matches
for `exit`/`quit`/`done` and `noop`; anything else falls through to
`return True`. -/
def read (mode_favorites : Bool) (command : String) : ReadResult :=
  let command := pyLower command
  if command ∈ ["s", "sk", "ski", "skip"] then
    ⟨.dislikeEff, true, mode_favorites⟩
  else if command ∈ ["u", "un", "und", "undo"] then
    ⟨.undoEff, true, mode_favorites⟩
  else if command ∈ ["n", "ne", "nex", "next"] then
    ⟨.pickEff mode_favorites, true, mode_favorites⟩
  else if command ∈ ["l", "li", "lis", "list"] then
    ⟨.listEff, true, mode_favorites⟩
  else if command ∈ ["f", "fa", "fav"] then
    ⟨.favoriteEff, true, mode_favorites⟩
  else if pyStartsWith command "mode" then
    let lineargs := pySplit command
    if lineargs.length = 1 then
      ⟨.nothing, true, mode_favorites⟩
    else
      let arg2 := pyLower (lineargs.getD 1 "")
      if arg2 = "normal" then ⟨.nothing, true, false⟩
      else if arg2 = "fav" then ⟨.nothing, true, true⟩
      else ⟨.nothing, true, mode_favorites⟩
  else if command ∈ ["exit", "quit", "done"] then
    ⟨.setDoneEff, false, mode_favorites⟩
  else if command = "noop" then
    ⟨.nothing, true, mode_favorites⟩
  else
    ⟨.nothing, true, mode_favorites⟩

/-! ### Rotation loop (`WallpaperManager.run`, wallpaper.py:298-304)

```
while not self.done:
    for _ in range(self.update_period_minutes):
        for _ in range(60//5):
            if self.done: return
            time.sleep(5)
    self.pick()
```

Two views are needed.  `runWait` models one pass of the nested waiting
loops with the stop flag read from a time-indexed schedule
`done : Nat → Bool` (its value at the `k`-th check), since the flag is
set concurrently by the input host; the two nested `for` loops are
flattened into `update_period_minutes * (60/5)` identical iterations.
`runLoop` models the outer `while` for the single-threaded case where
nothing sets the flag concurrently (so every check inside the wait sees
the same in-state value), with explicit fuel for the number of outer
iterations observed. -/

/-- Outcome of one pass of the waiting loops: how many 5-second sleeps
ran, and whether control reached the `self.pick()` call. -/
structure CycleResult where
  sleeps : Nat
  pickInvoked : Bool
deriving Repr, DecidableEq

/-- The waiting loops, iterating `n` more checks starting at check
index `start`: each iteration first tests the stop flag (returning
without `pick` when set) and then sleeps one 5-second increment; when
all checks pass, control falls through to `self.pick()`. -/
def runWaitAux (done : Nat → Bool) : Nat → Nat → CycleResult
  | _, 0 => ⟨0, true⟩
  | start, n + 1 =>
    if done start then ⟨0, false⟩
    else
      let r := runWaitAux done (start + 1) n
      ⟨r.sleeps + 1, r.pickInvoked⟩

/-- One pass of the nested waiting loops of `run`:
`update_period_minutes * (60/5)` stop-flag checks, each followed by a
5-second sleep, then `pick`. -/
def runWait (done : Nat → Bool) (update_period_minutes : Nat) : CycleResult :=
  runWaitAux done 0 (update_period_minutes * (60 / 5))

/-- The outer `while not self.done` loop of `run` in the absence of a
concurrent `set_done`: when the flag is clear the wait always completes
and `self.pick()` runs, its exception (if any) propagating out of
`run`; `fuel` bounds the number of outer iterations observed. -/
def runLoop (k : Nat) : Nat → ManagerState → PyResult
  | 0, s => .ok s
  | fuel + 1, s =>
    if s.done then .ok s
    else
      match pick false k s with
      | .ok s1 => runLoop k fuel s1
      | r => r

/-! ### Concrete states used by the counterexamples and witnesses -/

/-- A state in mid-session: pool `["a","b"]`, history `["w","a"]` with
`"a"` both chosen and displayed. -/
def sUndo : ManagerState :=
  ⟨["a", "b"], [], [], ["w", "a"], "a", false, false, "a", false, [], [], []⟩

/-- A state where the chosen path `"a"` was picked twice in a row, so
it occurs twice in the history. -/
def sDup : ManagerState :=
  ⟨["a", "b"], [], [], ["w", "a", "a"], "a", false, false, "a", false, [], [], []⟩

/-- The state right after startup: history seeded with the wallpaper
`"w"` active at launch, which is not part of the candidate pool. -/
def sSeed : ManagerState :=
  ⟨["a"], [], [], ["w"], "w", false, false, "w", false, [], [], []⟩

/-- A startup-like state whose candidate pool is empty. -/
def sEmptyPool : ManagerState :=
  ⟨[], [], [], ["w"], "w", false, false, "w", false, [], [], []⟩

/-- A state whose lock is currently held by some in-flight operation. -/
def sLocked : ManagerState :=
  ⟨["a", "b"], [], [], ["w"], "w", false, true, "w", false, [], [], []⟩

/-- A mid-session state used by the witnesses: chosen `"a"` is in the
pool and occurs once in the history. -/
def sMid : ManagerState :=
  ⟨["a", "b"], [], ["c"], ["w", "a"], "a", false, false, "a", false, [], [], []⟩

/-- Stop-flag schedule for the rotation-loop counterexample: the flag
is requested 58 seconds into a 60-second period, i.e. during the final
5-second sleep, so it is visible from check index 12 on but not at any
of the checks 0..11. -/
def lateStop : Nat → Bool :=
  fun k => decide (58 ≤ 5 * k)

/-- Stop-flag schedule that becomes true at the third check (stop
requested 3 seconds in, visible from check index 1 on). -/
def earlyStop : Nat → Bool :=
  fun k => decide (3 ≤ 5 * k)

/-! ## Theorems -/

/-- C1: `undo` pops the history and sets the wallpaper to the new top,
but never reassigns `chosen`: on `sUndo` (history `["w","a"]`, chosen
`"a"`) it returns normally with history `["w"]` and wallpaper `"w"`,
yet `chosen` is still `"a"`, so Chosen does not equal the last element
of History as the claim requires. -/
theorem undo_leaves_chosen_stale :
    (undo sUndo).isOk = true ∧
    (undo sUndo).state.history = ["w"] ∧
    (undo sUndo).state.wallpaper = "w" ∧
    (undo sUndo).state.chosen = "a" ∧
    (undo sUndo).state.history.getLast? = some "w" := by
  decide

/-- C2 counterexample: `dislike` removes only the first occurrence of
the chosen path from the history (`list.remove`), so on `sDup` (history
`["w","a","a"]`, chosen `"a"`) the disliked path `"a"` is still a
member of the history after `dislike` returns. -/
theorem dislike_leaves_duplicate_in_history :
    (dislike true 0 sDup).isOk = true ∧
    (dislike true 0 sDup).state.history = ["w", "a", "b"] ∧
    "a" ∈ (dislike true 0 sDup).state.history := by
  decide

/-- C3 counterexample: on the startup state `sSeed` (history `["w"]`,
chosen `"w"` not in the pool), `dislike` first removes `"w"` from the
history and then raises `ValueError` from `indexed.remove`, leaving the
history empty — length 0, violating the ≥ 1 invariant. -/
theorem dislike_can_empty_history :
    (dislike true 0 sSeed).raised = some .valueError ∧
    (dislike true 0 sSeed).state.history = [] := by
  decide

/-- C4 counterexample: `"exit"` stops the loop, but its non-empty
prefix `"e"` is silently ignored (as are `"q"` for `"quit"`, `"mod"`
for `"mode"`), and a whitespace-padded `" skip"` is not trimmed and is
ignored too — so parsing is neither whitespace-trimmed nor
prefix-closed for `mode` and `exit`/`quit`/`done`. -/
theorem exit_shortening_ignored :
    read false "exit" = ⟨.setDoneEff, false, false⟩ ∧
    read false "e" = ⟨.nothing, true, false⟩ ∧
    read false "quit" = ⟨.setDoneEff, false, false⟩ ∧
    read false "q" = ⟨.nothing, true, false⟩ ∧
    read false "mode fav" = ⟨.nothing, true, true⟩ ∧
    read false "mod fav" = ⟨.nothing, true, false⟩ ∧
    read false " skip" = ⟨.nothing, true, false⟩ := by
  decide

/-- C5 counterexample: with an empty candidate pool the `pick` of the rotation loop raises `IndexError` with no handler in `pick` or `run`: the loop
terminates with the exception (it does not survive the cycle) and the
manager lock is left held. -/
theorem empty_pool_pick_kills_rotation :
    (runLoop 0 1 sEmptyPool).raised = some .indexError ∧
    (runLoop 0 1 sEmptyPool).state.locked = true := by
  decide

/-- C6 counterexample: on a state whose lock is held, `pick`, `dislike`,
`undo` and `favorite` all block, but `get_chosen` returns and `set_done`
mutates the state — those two never acquire the mutex, so the six
operations are not mutually exclusive. -/
theorem get_chosen_ignores_mutex :
    undo sLocked = .blocked sLocked ∧
    pick false 0 sLocked = .blocked sLocked ∧
    dislike true 0 sLocked = .blocked sLocked ∧
    favorite true sLocked = .blocked sLocked ∧
    get_chosen sLocked = "w" ∧
    (set_done sLocked).done = true ∧
    (set_done sLocked).locked = true := by
  decide

/-- C8 counterexample: with a one-minute period and the stop flag
requested 58 seconds in (during the final 5-second sleep), every check
0..11 sees the flag clear, all 12 sleeps run, and `pick` is invoked
even though the flag is already set when the period expires — the loop
neither terminates within one increment of the stop nor refrains from
`pick`. -/
theorem pick_invoked_despite_stop :
    (runWait lateStop 1).pickInvoked = true ∧
    (runWait lateStop 1).sleeps = 12 ∧
    lateStop 11 = false ∧
    lateStop 12 = true := by
  decide

/-! ### Helper lemmas -/

/-- Every operation that begins with `self.lock.acquire()` blocks when
the lock is already held. -/
theorem blocked_of_locked (s : ManagerState) (f w : Bool) (k : Nat)
    (h : s.locked = true) :
    pick f k s = .blocked s ∧ dislike w k s = .blocked s ∧
    undo s = .blocked s ∧ favorite w s = .blocked s := by
  simp [pick, dislike, undo, favorite, h]

/-- `random.choice` on a non-empty sequence returns a member of it. -/
theorem pyChoice_mem {l : List String} (k : Nat) (h : l ≠ []) :
    ∃ c, pyChoice l k = some c ∧ c ∈ l := by
  have h0 : 0 < l.length := List.length_pos.mpr h
  have hm : k % l.length < l.length := Nat.mod_lt _ h0
  exact ⟨l[k % l.length], by simp [pyChoice, List.getElem?_eq_getElem hm],
         List.getElem_mem hm⟩

/-- On an unlocked state with a non-empty pool, `pick(favorites=False)`
returns normally, choosing some pool member and appending it. -/
theorem pick_false_ok (k : Nat) (s : ManagerState)
    (hl : s.locked = false) (hne : s.indexed ≠ []) :
    ∃ c, c ∈ s.indexed ∧
      pick false k s = .ok { s with
        chosen := c,
        output := if s.file_out then s.output ++ [c] else s.output,
        wallpaper := c,
        history := s.history ++ [c],
        locked := false } := by
  obtain ⟨c, hc, hcm⟩ := pyChoice_mem (l := s.indexed) k hne
  exact ⟨c, hcm, by simp [pick, hl, hc]⟩

/-- Whatever its arguments, a `pick` that returns normally appended its
choice to the history and left the pool and the lock alone. -/
theorem pick_ok_shape {f : Bool} {k : Nat} {s s1 : ManagerState}
    (h : pick f k s = .ok s1) :
    ∃ c, s1.history = s.history ++ [c] ∧ s1.chosen = c ∧
      s1.indexed = s.indexed ∧ s1.locked = false := by
  unfold pick at h
  split at h
  · simp at h
  · split at h
    · simp at h
    · rename_i c hc
      rw [PyResult.ok.injEq] at h
      subst h
      exact ⟨c, by simp, by simp, by simp, by simp⟩

/-- An `undo` that returns normally keeps the history non-empty (it
pops only when the length exceeds 1). -/
theorem undo_ok_history_ne {s s1 : ManagerState}
    (h0 : s.history ≠ []) (h : undo s = .ok s1) : s1.history ≠ [] := by
  by_cases hl : s.locked = true
  · simp [undo, hl] at h
  · by_cases hlen : 1 < s.history.length
    · have hd : s.history.dropLast ≠ [] := by
        intro hnil
        have hlend := List.length_dropLast s.history
        rw [hnil] at hlend
        simp at hlend
        omega
      have htop : s.history.dropLast.getLast? = some (s.history.dropLast.getLast hd) :=
        List.getLast?_eq_getLast _ hd
      simp only [undo, hl, if_false, Bool.false_eq_true, hlen, if_true, htop] at h
      rw [PyResult.ok.injEq] at h
      subst h
      simpa using hd
    · simp only [undo, hl, if_false, Bool.false_eq_true, hlen] at h
      rw [PyResult.ok.injEq] at h
      subst h
      simpa using h0

/-- A `favorite` that returns normally leaves the history unchanged. -/
theorem favorite_ok_history {w : Bool} {s s1 : ManagerState}
    (h : favorite w s = .ok s1) : s1.history = s.history := by
  by_cases hl : s.locked = true
  · simp [favorite, hl] at h
  · by_cases hw : w = true
    · subst hw
      simp only [favorite, hl, if_false, Bool.false_eq_true, if_true] at h
      rw [PyResult.ok.injEq] at h
      subst h
      rfl
    · have hw' : w = false := by simpa using hw
      subst hw'
      simp [favorite, hl] at h

/-- A `dislike` that returns normally ends in its final `pick`, so the
history ends with the newly chosen path and is non-empty. -/
theorem dislike_ok_history_ne {w : Bool} {k : Nat} {s s1 : ManagerState}
    (h : dislike w k s = .ok s1) : s1.history ≠ [] := by
  by_cases hl : s.locked = true
  · simp [dislike, hl] at h
  · by_cases hmem : s.chosen ∈ s.indexed
    · by_cases hw : w = true
      · subst hw
        simp only [dislike, hl, if_false, Bool.false_eq_true, hmem, if_true] at h
        obtain ⟨c, hc, -, -, -⟩ := pick_ok_shape h
        simp [hc]
      · have hw' : w = false := by simpa using hw
        subst hw'
        simp [dislike, hl, hmem] at h
    · simp [dislike, hl, hmem] at h

/-- Each operation, when it returns normally, preserves non-emptiness
of the history. -/
theorem runOp_ok_history_ne {o : MOp} {s s1 : ManagerState}
    (h0 : s.history ≠ []) (h : runOp o s = .ok s1) : s1.history ≠ [] := by
  cases o with
  | pickOp f k =>
    obtain ⟨c, hc, -, -, -⟩ := pick_ok_shape (show pick f k s = .ok s1 from h)
    simp [hc]
  | dislikeOp w k => exact dislike_ok_history_ne (show dislike w k s = .ok s1 from h)
  | undoOp => exact undo_ok_history_ne h0 (show undo s = .ok s1 from h)
  | favoriteOp w =>
    rw [favorite_ok_history (show favorite w s = .ok s1 from h)]
    exact h0

/-! ### Claim theorems (universal statements) -/

/-- C3 amended: starting from any state whose history is non-empty (in
particular the constructed state, seeded with the startup wallpaper),
every sequence of manager operations that returns normally ends with a
non-empty history; the ≥ 1 invariant can fail only on the exception paths of `dislike`. -/
theorem history_nonempty_preserved (ops : List MOp) (s s1 : ManagerState)
    (h0 : s.history ≠ []) (h : runOps ops s = .ok s1) : s1.history ≠ [] := by
  induction ops generalizing s with
  | nil =>
    simp only [runOps] at h
    rw [PyResult.ok.injEq] at h
    subst h
    exact h0
  | cons o os ih =>
    simp only [runOps] at h
    cases hr : runOp o s with
    | ok s2 =>
      rw [hr] at h
      exact ih s2 (runOp_ok_history_ne h0 hr) h
    | exn e st =>
      rw [hr] at h
      simp at h
    | blocked st =>
      rw [hr] at h
      simp at h

/-- C2 amended: on an unlocked state whose chosen path occurs exactly
once in the pool and at most once in the history, and whose pool keeps
at least one other entry, `dislike` returns normally having appended
the old chosen path to the disliked list, persisted that snapshot,
removed the path from pool and history (removal from the history being
a no-op when the path is absent), and produced a new chosen path via a
final `pick(favorites=False)`; with duplicated occurrences only the
first one is removed. -/
theorem dislike_removes_and_repicks (k : Nat) (s : ManagerState)
    (hl : s.locked = false)
    (hpool : s.indexed.count s.chosen = 1)
    (hhist : s.history.count s.chosen ≤ 1)
    (hleft : s.indexed.erase s.chosen ≠ []) :
    (dislike true k s).isOk = true ∧
    (dislike true k s).state.disliked_filepaths = s.disliked_filepaths ++ [s.chosen] ∧
    (dislike true k s).state.disk_disliked = s.disliked_filepaths ++ [s.chosen] ∧
    (dislike true k s).state.indexed = s.indexed.erase s.chosen ∧
    s.chosen ∉ (dislike true k s).state.indexed ∧
    s.chosen ∉ (dislike true k s).state.history ∧
    (dislike true k s).state.history =
      (s.history.erase s.chosen) ++ [(dislike true k s).state.chosen] ∧
    (dislike true k s).state.history.getLast? = some ((dislike true k s).state.chosen) ∧
    (dislike true k s).state.chosen ∈ s.indexed.erase s.chosen ∧
    (dislike true k s).state.locked = false := by
  have hmem : s.chosen ∈ s.indexed := by
    have := List.count_pos_iff.mp (by omega : 0 < s.indexed.count s.chosen)
    exact this
  have hnotl : ¬s.locked = true := by simp [hl]
  have hpool0 : (s.indexed.erase s.chosen).count s.chosen = 0 := by
    rw [List.count_erase_self]
    omega
  have hhist0 : (s.history.erase s.chosen).count s.chosen = 0 := by
    rw [List.count_erase_self]
    omega
  have hpoolnot : s.chosen ∉ s.indexed.erase s.chosen := List.count_eq_zero.mp hpool0
  have hhistnot : s.chosen ∉ s.history.erase s.chosen := List.count_eq_zero.mp hhist0
  obtain ⟨c, hcm, hpick⟩ :=
    pick_false_ok k
      { s with
          locked := false,
          output := if s.file_out then s.output ++ [s.chosen] else s.output,
          history := s.history.erase s.chosen,
          indexed := s.indexed.erase s.chosen,
          disliked_filepaths := s.disliked_filepaths ++ [s.chosen],
          disk_disliked := s.disliked_filepaths ++ [s.chosen] }
      rfl (by simpa using hleft)
  have hred : dislike true k s =
      pick false k
        { s with
            locked := false,
            output := if s.file_out then s.output ++ [s.chosen] else s.output,
            history := s.history.erase s.chosen,
            indexed := s.indexed.erase s.chosen,
            disliked_filepaths := s.disliked_filepaths ++ [s.chosen],
            disk_disliked := s.disliked_filepaths ++ [s.chosen] } := by
    simp [dislike, hnotl, hmem]
  have hcne : c ≠ s.chosen := by
    intro hEq
    rw [hEq] at hcm
    exact hpoolnot (by simpa using hcm)
  rw [hred, hpick]
  refine ⟨rfl, by simp [PyResult.state], by simp [PyResult.state],
    by simp [PyResult.state], ?_, ?_, by simp [PyResult.state], ?_,
    by simpa [PyResult.state] using hcm, by simp [PyResult.state]⟩
  · simpa [PyResult.state] using hpoolnot
  · simp only [PyResult.state]
    intro hmem2
    simp only [List.mem_append, List.mem_singleton] at hmem2
    rcases hmem2 with hmem2 | hmem2
    · exact hhistnot hmem2
    · exact hcne hmem2.symm
  · simp [PyResult.state, List.getLast?_concat]

/-- C5 amended: `pick(favorites=False)` on an empty candidate pool
raises `IndexError` (the distinct error condition), but `pick` has no
handler or `finally`, so the lock stays held, and `run` does not catch
it either: the rotation loop terminates with the exception instead of
surviving the cycle. -/
theorem pick_empty_pool_raises (k fuel : Nat) (s : ManagerState)
    (hl : s.locked = false) (hd : s.done = false) (hi : s.indexed = []) :
    pick false k s = .exn .indexError { s with locked := true } ∧
    runLoop k (fuel + 1) s = .exn .indexError { s with locked := true } := by
  have hnotl : ¬s.locked = true := by simp [hl]
  have hp : pick false k s = .exn .indexError { s with locked := true } := by
    simp [pick, hnotl, hi, pyChoice]
  refine ⟨hp, ?_⟩
  simp [runLoop, hd, hp]

/-- C6 amended: `pick`, `dislike`, `undo` and `favorite` are serialized
by the manager mutex (each blocks while it is held), but `get_chosen`
and `set_done` never acquire it: they complete against a locked state,
so the six public operations are not all mutually exclusive. -/
theorem mutex_covers_only_four_ops (s : ManagerState) (f w : Bool) (k : Nat)
    (h : s.locked = true) :
    pick f k s = .blocked s ∧ dislike w k s = .blocked s ∧
    undo s = .blocked s ∧ favorite w s = .blocked s ∧
    get_chosen s = s.chosen ∧ set_done s = { s with done := true } := by
  obtain ⟨h1, h2, h3, h4⟩ := blocked_of_locked s f w k h
  exact ⟨h1, h2, h3, h4, rfl, rfl⟩

/-- C7: when the JSON snapshot write raises inside `favorite` or
`dislike`, the exception is surfaced to the caller and the
`try`/`finally` still releases the lock on that exit path.  (For
`dislike` the snapshot write is reached only when the chosen path is in
the pool.) -/
theorem persistence_failure_releases_lock (k : Nat) (s : ManagerState)
    (hl : s.locked = false) (hmem : s.chosen ∈ s.indexed) :
    (favorite false s).raised = some .osError ∧
    (favorite false s).state.locked = false ∧
    (dislike false k s).raised = some .osError ∧
    (dislike false k s).state.locked = false := by
  have hnotl : ¬s.locked = true := by simp [hl]
  refine ⟨?_, ?_, ?_, ?_⟩ <;>
    simp [favorite, dislike, hnotl, hmem, PyResult.raised, PyResult.state]

/-- C9: calling `dislike` while the chosen path is not in the candidate
pool (the normal state right after startup) raises an uncaught
`ValueError` from `self.indexed.remove` after the history has already
been mutated; the disliked list and its snapshot are untouched, no
re-pick happens (`chosen` unchanged), the lock is never released, and
every subsequent locking operation blocks forever. -/
theorem dislike_unpooled_chosen_deadlocks (w : Bool) (k : Nat) (s : ManagerState)
    (hl : s.locked = false) (hmem : s.chosen ∉ s.indexed) :
    (dislike w k s).raised = some .valueError ∧
    (dislike w k s).state.locked = true ∧
    (dislike w k s).state.history = s.history.erase s.chosen ∧
    (dislike w k s).state.disliked_filepaths = s.disliked_filepaths ∧
    (dislike w k s).state.disk_disliked = s.disk_disliked ∧
    (dislike w k s).state.chosen = s.chosen ∧
    (dislike w k s).state.indexed = s.indexed ∧
    pick false 0 (dislike w k s).state = .blocked ((dislike w k s).state) ∧
    dislike true 0 (dislike w k s).state = .blocked ((dislike w k s).state) ∧
    undo ((dislike w k s).state) = .blocked ((dislike w k s).state) ∧
    favorite true ((dislike w k s).state) = .blocked ((dislike w k s).state) := by
  have hnotl : ¬s.locked = true := by simp [hl]
  have hlocked : (dislike w k s).state.locked = true := by
    simp [dislike, hnotl, hmem, PyResult.state]
  obtain ⟨hb1, hb2, hb3, hb4⟩ :=
    blocked_of_locked ((dislike w k s).state) false true 0 hlocked
  refine ⟨?_, hlocked, ?_, ?_, ?_, ?_, ?_, hb1, hb2, hb3, hb4⟩ <;>
    simp [dislike, hnotl, hmem, PyResult.raised, PyResult.state]

/-- C10: `dislike` and `favorite` are not atomic when the snapshot
write fails: the in-memory mutations already applied are kept (the
appended favorite; the disliked append, pool removal and history
removal), the on-disk snapshot is unchanged — so memory and disk
diverge — and the promised final re-pick of `dislike` is skipped (`chosen`
and the history are left without a new pick). -/
theorem persistence_failure_not_atomic (k : Nat) (s : ManagerState)
    (hl : s.locked = false) (hmem : s.chosen ∈ s.indexed) :
    (favorite false s).raised = some .osError ∧
    (favorite false s).state.favorites_filepaths = s.favorites_filepaths ++ [s.chosen] ∧
    (favorite false s).state.disk_favorites = s.disk_favorites ∧
    (dislike false k s).raised = some .osError ∧
    (dislike false k s).state.disliked_filepaths = s.disliked_filepaths ++ [s.chosen] ∧
    (dislike false k s).state.indexed = s.indexed.erase s.chosen ∧
    (dislike false k s).state.history = s.history.erase s.chosen ∧
    (dislike false k s).state.disk_disliked = s.disk_disliked ∧
    (dislike false k s).state.chosen = s.chosen := by
  have hnotl : ¬s.locked = true := by simp [hl]
  refine ⟨?_, ?_, ?_, ?_, ?_, ?_, ?_, ?_, ?_⟩ <;>
    simp [favorite, dislike, hnotl, hmem, PyResult.raised, PyResult.state]

/-- The waiting loops exit at the first check that sees the stop flag:
if the flag is visible at check `k` (with `k` within the pass), the
pass performs at most `k` sleeps and never reaches `pick`. -/
theorem runWaitAux_stop (done : Nat → Bool) :
    ∀ n start k, k < n → done (start + k) = true →
      (runWaitAux done start n).pickInvoked = false ∧
      (runWaitAux done start n).sleeps ≤ k := by
  intro n
  induction n with
  | zero => intro start k hk; omega
  | succ n ih =>
    intro start k hk hd
    by_cases h0 : done start = true
    · simp [runWaitAux, h0]
    · have hne : done start = false := by simpa using h0
      cases k with
      | zero =>
        rw [Nat.add_zero] at hd
        rw [hd] at hne
        cases hne
      | succ k =>
        have hrec := ih (start + 1) k (by omega)
          (by rw [show start + 1 + k = start + (k + 1) by omega]; exact hd)
        simp only [runWaitAux, hne, Bool.false_eq_true, if_false]
        exact ⟨hrec.1, by omega⟩

/-- When no check sees the stop flag, the waiting loops complete all
their sleeps and fall through to `pick`. -/
theorem runWaitAux_full (done : Nat → Bool) :
    ∀ n start, (∀ i, i < n → done (start + i) = false) →
      runWaitAux done start n = ⟨n, true⟩ := by
  intro n
  induction n with
  | zero => intro start h; rfl
  | succ n ih =>
    intro start h
    have h0 : done start = false := by simpa using h 0 (by omega)
    have hrec := ih (start + 1) (fun i hi => by
      rw [show start + 1 + i = start + (i + 1) by omega]
      exact h (i + 1) (by omega))
    simp [runWaitAux, h0, hrec]

/-- C8 amended: the rotation loop checks the stop flag *before* each
5-second sleep (not after), so whenever the flag is visible at some
check inside the pass the loop terminates there — within one increment
of the stop request — without invoking `pick`; but when every check of
the pass sees the flag clear, all sleeps run and `pick` is invoked at
period expiry even if the flag was set during the final increment (it
is not re-checked between the last sleep and `pick`). -/
theorem rotation_stop_latency (done : Nat → Bool) (m : Nat) :
    (∀ k, k < m * (60 / 5) → done k = true →
      (runWait done m).pickInvoked = false ∧ (runWait done m).sleeps ≤ k) ∧
    ((∀ i, i < m * (60 / 5) → done i = false) →
      runWait done m = ⟨m * (60 / 5), true⟩) := by
  constructor
  · intro k hk hd
    exact runWaitAux_stop done (m * (60 / 5)) 0 k hk (by simpa using hd)
  · intro h
    exact runWaitAux_full done (m * (60 / 5)) 0 (fun i hi => by simpa using h i hi)

/-- C4 amended: parsing lowercases the command but does not strip
whitespace; any non-empty prefix of `skip`, `undo`, `next`, `list`,
`fav` is accepted (so `"SKI"` parses identically to `"skip"`), but
`mode` is matched with `command.startswith("mode")` — a shorter prefix
such as `"mod"` is silently ignored (for the bare command both are
no-ops, but `"mod fav"` does not switch the mode while `"mode fav"`
does) — and `exit`/`quit`/`done` are matched only in full, their
shorter prefixes being silently ignored. -/
theorem read_verb_matching : ∀ m : Bool,
    (read m "s" = ⟨.dislikeEff, true, m⟩ ∧ read m "sk" = ⟨.dislikeEff, true, m⟩ ∧
      read m "ski" = ⟨.dislikeEff, true, m⟩ ∧ read m "skip" = ⟨.dislikeEff, true, m⟩ ∧
      read m "SKI" = read m "skip" ∧ read m "SKIP" = read m "skip") ∧
    (read m "u" = ⟨.undoEff, true, m⟩ ∧ read m "un" = ⟨.undoEff, true, m⟩ ∧
      read m "und" = ⟨.undoEff, true, m⟩ ∧ read m "undo" = ⟨.undoEff, true, m⟩) ∧
    (read m "n" = ⟨.pickEff m, true, m⟩ ∧ read m "ne" = ⟨.pickEff m, true, m⟩ ∧
      read m "nex" = ⟨.pickEff m, true, m⟩ ∧ read m "next" = ⟨.pickEff m, true, m⟩) ∧
    (read m "l" = ⟨.listEff, true, m⟩ ∧ read m "li" = ⟨.listEff, true, m⟩ ∧
      read m "lis" = ⟨.listEff, true, m⟩ ∧ read m "list" = ⟨.listEff, true, m⟩) ∧
    (read m "f" = ⟨.favoriteEff, true, m⟩ ∧ read m "fa" = ⟨.favoriteEff, true, m⟩ ∧
      read m "fav" = ⟨.favoriteEff, true, m⟩) ∧
    (read m "mode" = ⟨.nothing, true, m⟩ ∧
      read m "mode normal" = ⟨.nothing, true, false⟩ ∧
      read m "mode fav" = ⟨.nothing, true, true⟩ ∧
      read m "m" = ⟨.nothing, true, m⟩ ∧ read m "mod" = ⟨.nothing, true, m⟩ ∧
      read m "mod fav" = ⟨.nothing, true, m⟩) ∧
    (read m "exit" = ⟨.setDoneEff, false, m⟩ ∧ read m "quit" = ⟨.setDoneEff, false, m⟩ ∧
      read m "done" = ⟨.setDoneEff, false, m⟩ ∧ read m "EXIT" = ⟨.setDoneEff, false, m⟩ ∧
      read m "e" = ⟨.nothing, true, m⟩ ∧ read m "ex" = ⟨.nothing, true, m⟩ ∧
      read m "q" = ⟨.nothing, true, m⟩ ∧ read m "d" = ⟨.nothing, true, m⟩) ∧
    (read m "noop" = ⟨.nothing, true, m⟩ ∧
      read m " skip" = ⟨.nothing, true, m⟩ ∧
      read m "skip " = ⟨.nothing, true, m⟩ ∧
      read m "unrecognized" = ⟨.nothing, true, m⟩) := by
  intro m
  cases m <;> decide

/-! ### Witnesses: the hypotheses of the universal theorems are
satisfiable at concrete states. -/

/-- Witness for the history-length invariant: a pick followed by an
undo on the concrete state `sMid` returns normally (back to `sMid`
itself), and the preserved history is non-empty. -/
theorem history_nonempty_preserved_witness :
    runOps [MOp.pickOp false 0, MOp.undoOp] sMid = .ok sMid ∧ sMid.history ≠ [] :=
  ⟨by decide,
   history_nonempty_preserved [MOp.pickOp false 0, MOp.undoOp] sMid sMid
     (by decide) (by decide)⟩

/-- Witness for the amended `dislike` contract at the concrete state
`sMid` (chosen `"a"` once in pool `["a","b"]` and once in history). -/
theorem dislike_removes_and_repicks_witness :
    (dislike true 0 sMid).isOk = true ∧
    (dislike true 0 sMid).state.disliked_filepaths =
      sMid.disliked_filepaths ++ [sMid.chosen] ∧
    (dislike true 0 sMid).state.disk_disliked =
      sMid.disliked_filepaths ++ [sMid.chosen] ∧
    (dislike true 0 sMid).state.indexed = sMid.indexed.erase sMid.chosen ∧
    sMid.chosen ∉ (dislike true 0 sMid).state.indexed ∧
    sMid.chosen ∉ (dislike true 0 sMid).state.history ∧
    (dislike true 0 sMid).state.history =
      (sMid.history.erase sMid.chosen) ++ [(dislike true 0 sMid).state.chosen] ∧
    (dislike true 0 sMid).state.history.getLast? =
      some ((dislike true 0 sMid).state.chosen) ∧
    (dislike true 0 sMid).state.chosen ∈ sMid.indexed.erase sMid.chosen ∧
    (dislike true 0 sMid).state.locked = false :=
  dislike_removes_and_repicks 0 sMid (by decide) (by decide) (by decide) (by decide)

/-- Witness for the empty-pool behavior at the concrete state
`sEmptyPool`. -/
theorem pick_empty_pool_raises_witness :
    pick false 0 sEmptyPool = .exn .indexError { sEmptyPool with locked := true } ∧
    runLoop 0 1 sEmptyPool = .exn .indexError { sEmptyPool with locked := true } :=
  pick_empty_pool_raises 0 0 sEmptyPool (by decide) (by decide) (by decide)

/-- Witness for the locking discipline at the concrete held-lock state
`sLocked`. -/
theorem mutex_covers_only_four_ops_witness :
    pick false 0 sLocked = .blocked sLocked ∧
    dislike true 0 sLocked = .blocked sLocked ∧
    undo sLocked = .blocked sLocked ∧
    favorite true sLocked = .blocked sLocked ∧
    get_chosen sLocked = sLocked.chosen ∧
    set_done sLocked = { sLocked with done := true } :=
  mutex_covers_only_four_ops sLocked false true 0 (by decide)

/-- Witness for the release-on-failure guarantee at the concrete state
`sMid`. -/
theorem persistence_failure_releases_lock_witness :
    (favorite false sMid).raised = some .osError ∧
    (favorite false sMid).state.locked = false ∧
    (dislike false 0 sMid).raised = some .osError ∧
    (dislike false 0 sMid).state.locked = false :=
  persistence_failure_releases_lock 0 sMid (by decide) (by decide)

/-- Witness for the startup deadlock at the concrete startup state
`sSeed` (seed wallpaper `"w"` not in the pool `["a"]`). -/
theorem dislike_unpooled_chosen_deadlocks_witness :
    (dislike true 0 sSeed).raised = some .valueError ∧
    (dislike true 0 sSeed).state.locked = true ∧
    (dislike true 0 sSeed).state.history = sSeed.history.erase sSeed.chosen ∧
    (dislike true 0 sSeed).state.disliked_filepaths = sSeed.disliked_filepaths ∧
    (dislike true 0 sSeed).state.disk_disliked = sSeed.disk_disliked ∧
    (dislike true 0 sSeed).state.chosen = sSeed.chosen ∧
    (dislike true 0 sSeed).state.indexed = sSeed.indexed ∧
    pick false 0 ((dislike true 0 sSeed).state) =
      .blocked ((dislike true 0 sSeed).state) ∧
    dislike true 0 ((dislike true 0 sSeed).state) =
      .blocked ((dislike true 0 sSeed).state) ∧
    undo ((dislike true 0 sSeed).state) = .blocked ((dislike true 0 sSeed).state) ∧
    favorite true ((dislike true 0 sSeed).state) =
      .blocked ((dislike true 0 sSeed).state) :=
  dislike_unpooled_chosen_deadlocks true 0 sSeed (by decide) (by decide)

/-- Witness for the non-atomicity of failing snapshot writes at the
concrete state `sMid`. -/
theorem persistence_failure_not_atomic_witness :
    (favorite false sMid).raised = some .osError ∧
    (favorite false sMid).state.favorites_filepaths =
      sMid.favorites_filepaths ++ [sMid.chosen] ∧
    (favorite false sMid).state.disk_favorites = sMid.disk_favorites ∧
    (dislike false 0 sMid).raised = some .osError ∧
    (dislike false 0 sMid).state.disliked_filepaths =
      sMid.disliked_filepaths ++ [sMid.chosen] ∧
    (dislike false 0 sMid).state.indexed = sMid.indexed.erase sMid.chosen ∧
    (dislike false 0 sMid).state.history = sMid.history.erase sMid.chosen ∧
    (dislike false 0 sMid).state.disk_disliked = sMid.disk_disliked ∧
    (dislike false 0 sMid).state.chosen = sMid.chosen :=
  persistence_failure_not_atomic 0 sMid (by decide) (by decide)

/-- Witness for the shutdown latency bound: stop requested 3 seconds
into a one-minute period (visible at check 1) exits within one
increment and never invokes `pick` (Scenario E of the spec). -/
theorem rotation_stop_latency_witness :
    (runWait earlyStop 1).pickInvoked = false ∧ (runWait earlyStop 1).sleeps ≤ 1 :=
  (rotation_stop_latency earlyStop 1).1 1 (by decide) (by decide)

end Wallpaper
